import Mathlib

/-!
Verification of `mlflow_extensions/serving/wrapper.py`: the envelope codec
(`RequestMessageV1` / `ResponseMessageV1` serialization), the batch prediction
pipeline (`CustomServingEnginePyfuncWrapper.predict`), the engine client
gateway (`_request_model`), the response unwrapper
(`iter_mlflow_predictions`), engine start-up (`load_context`) and the
artifacts accessor.  External collaborators (the HTTP client, the JSON
library, the engine process) are modelled as explicit parameters, and
stateful methods as functions on an explicit wrapper state.
-/

/-! ## Decimal digits for the numeric `timeout` field of the envelope -/

/-- Character for a single decimal digit (values ≥ 10 never occur). -/
def digitChar (d : Nat) : Char :=
  match d with
  | 0 => '0' | 1 => '1' | 2 => '2' | 3 => '3' | 4 => '4'
  | 5 => '5' | 6 => '6' | 7 => '7' | 8 => '8' | 9 => '9'
  | _ => '0'

/-- Decimal digit denoted by a character, if any. -/
def digitOfChar (c : Char) : Option Nat :=
  if c = '0' then some 0 else if c = '1' then some 1
  else if c = '2' then some 2 else if c = '3' then some 3
  else if c = '4' then some 4 else if c = '5' then some 5
  else if c = '6' then some 6 else if c = '7' then some 7
  else if c = '8' then some 8 else if c = '9' then some 9
  else none

/-- Most-significant-first decimal digits of `n`; `fuel` bounds the recursion. -/
def natToCharsAux : Nat → Nat → List Char
  | 0, _ => []
  | fuel + 1, n =>
    if n < 10 then [digitChar n]
    else natToCharsAux fuel (n / 10) ++ [digitChar (n % 10)]

/-- Decimal representation of a natural number. -/
def natToChars (n : Nat) : List Char := natToCharsAux (n + 1) n

/-- Fold decimal digits onto an accumulator; fails on a non-digit. -/
def charsToNatAux : Nat → List Char → Option Nat
  | acc, [] => some acc
  | acc, c :: cs =>
    match digitOfChar c with
    | none => none
    | some d => charsToNatAux (acc * 10 + d) cs

/-- Parse a non-empty string of decimal digits. -/
def charsToNat (cs : List Char) : Option Nat :=
  if cs.isEmpty then none else charsToNatAux 0 cs

/-! ## Escaped field encoding of the envelope codec

Modelled from the spec: the repository's `mlflow_extensions.serving.serde`
module is not part of the sources under verification; the spec describes its
contract as a flat, field-tagged, self-describing text format whose decoder
inverts the encoder exactly, tolerating payload bodies that contain the
format's own structural characters.  Fields are written `tag=value;` with
`\` escaping the structural characters `;` and `\` inside the value. -/

/-- True for the characters the envelope encoding must escape. -/
def needsEsc (c : Char) : Bool := c = ';' || c = '\\'

/-- Escape the structural characters of the envelope encoding. -/
def esc : List Char → List Char
  | [] => []
  | c :: cs => if needsEsc c then '\\' :: c :: esc cs else c :: esc cs

/-- Parse one escaped field value up to its `;` terminator; returns the
unescaped value and the rest of the input. -/
def parseVal : List Char → Option (List Char × List Char)
  | [] => none
  | [c] => if c = ';' then some ([], []) else none
  | c :: d :: rest =>
    if c = ';' then some ([], d :: rest)
    else if c = '\\' then
      match parseVal rest with
      | none => none
      | some (v, r) => some (d :: v, r)
    else
      match parseVal (d :: rest) with
      | none => none
      | some (v, r) => some (c :: v, r)

/-- Consume an expected literal tag from the front of the input. -/
def dropTag : List Char → List Char → Option (List Char)
  | [], s => some s
  | _ :: _, [] => none
  | t :: ts, c :: cs => if c = t then dropTag ts cs else none

/-- Parse a `tag=value;` field: the tag, then one escaped value. -/
def parseField (tag : List Char) (s : List Char) : Option (List Char × List Char) :=
  match dropTag tag s with
  | none => none
  | some s1 => parseVal s1

/-- Encode a `tag=value;` field, escaping the value. -/
def encField (tag : List Char) (v : List Char) : List Char :=
  tag ++ esc v ++ [';']

/-! ## RequestMessageV1 and ResponseMessageV1

Modelled from the spec: the `RequestMessageV1` / `ResponseMessageV1` record
types and their `serialize` / `deserialize` methods live in
`mlflow_extensions.serving.serde`, which is outside the sources under
verification; field sets follow the spec's data model (§3) and the wrapper's
call sites, and the wire format follows the spec's Envelope Codec contract
(§4.1). -/

/-- Request envelope record (spec §3 RequestRecord). -/
structure RequestMessageV1 where
  method : String
  timeout : Nat
  payload : String
  request_path : String
deriving DecidableEq

/-- Response envelope record (spec §3 ResponseRecord). -/
structure ResponseMessageV1 where
  request_method : String
  request_timeout : Nat
  response_data : String
  response_status_code : Nat
  response_content_type : String
deriving DecidableEq

def methodTag : List Char := "method=".toList

def timeoutTag : List Char := "timeout=".toList

def payloadTag : List Char := "payload=".toList

def requestPathTag : List Char := "request_path=".toList

/-- Encode a request record as a flat field-tagged text envelope. -/
def RequestMessageV1.serialize (r : RequestMessageV1) : String :=
  ⟨encField methodTag r.method.data ++ encField timeoutTag (natToChars r.timeout) ++
    encField payloadTag r.payload.data ++ encField requestPathTag r.request_path.data⟩

/-- Decode a request envelope; `none` models a raised `MalformedEnvelope`. -/
def deserializeReqAux (s : List Char) : Option RequestMessageV1 :=
  match parseField methodTag s with
  | none => none
  | some (m, s1) =>
    match parseField timeoutTag s1 with
    | none => none
    | some (tc, s2) =>
      match charsToNat tc with
      | none => none
      | some t =>
        match parseField payloadTag s2 with
        | none => none
        | some (p, s3) =>
          match parseField requestPathTag s3 with
          | none => none
          | some (rp, s4) =>
            if s4.isEmpty then some ⟨⟨m⟩, t, ⟨p⟩, ⟨rp⟩⟩ else none

/-- Decode a request envelope string. -/
def RequestMessageV1.deserialize (s : String) : Option RequestMessageV1 :=
  deserializeReqAux s.data

def requestMethodTag : List Char := "request_method=".toList

def requestTimeoutTag : List Char := "request_timeout=".toList

def responseDataTag : List Char := "response_data=".toList

def responseStatusCodeTag : List Char := "response_status_code=".toList

def responseContentTypeTag : List Char := "response_content_type=".toList

/-- Encode a response record as a flat field-tagged text envelope. -/
def ResponseMessageV1.serialize (r : ResponseMessageV1) : String :=
  ⟨encField requestMethodTag r.request_method.data ++
    encField requestTimeoutTag (natToChars r.request_timeout) ++
    encField responseDataTag r.response_data.data ++
    encField responseStatusCodeTag (natToChars r.response_status_code) ++
    encField responseContentTypeTag r.response_content_type.data⟩

/-- Decode a response envelope; `none` models a raised `MalformedEnvelope`. -/
def deserializeRespAux (s : List Char) : Option ResponseMessageV1 :=
  match parseField requestMethodTag s with
  | none => none
  | some (m, s1) =>
    match parseField requestTimeoutTag s1 with
    | none => none
    | some (tc, s2) =>
      match charsToNat tc with
      | none => none
      | some t =>
        match parseField responseDataTag s2 with
        | none => none
        | some (d, s3) =>
          match parseField responseStatusCodeTag s3 with
          | none => none
          | some (sc, s4) =>
            match charsToNat sc with
            | none => none
            | some code =>
              match parseField responseContentTypeTag s4 with
              | none => none
              | some (ct, s5) =>
                if s5.isEmpty then some ⟨⟨m⟩, t, ⟨d⟩, code, ⟨ct⟩⟩ else none

/-- Decode a response envelope string. -/
def ResponseMessageV1.deserialize (s : String) : Option ResponseMessageV1 :=
  deserializeRespAux s.data

/-! ## HTTP client model

The wrapper calls `self._engine.oai_http_client.request(method=..., url=...,
timeout=..., content=...)` (httpx); the client and server are external
collaborators, modelled as an arbitrary function from the issued call to a
response exposing `status_code`, `text` and `headers`. -/

/-- One outbound HTTP call as issued by `_request_model` (wrapper.py:42-47). -/
structure HttpCall where
  method : String
  url : String
  timeout : Nat
  content : String
deriving DecidableEq

/-- The response object surface used by `_request_model`: `status_code`,
`text` and `headers` (wrapper.py:48-54). -/
structure HttpResponse where
  status_code : Nat
  text : String
  headers : List (String × String)

/-- An HTTP client bound to the engine: any function from call to response. -/
def HttpClient : Type := HttpCall → HttpResponse

/-- Python's `headers.get(key, default)` on a header mapping. -/
def headersGet (hs : List (String × String)) (k dflt : String) : String :=
  match hs.lookup k with
  | some v => v
  | none => dflt

/-- The call `_request_model` issues for a decoded request record: method,
timeout and body from the record, URL the adapter's fixed endpoint. -/
def mkHttpCall (endpoint : String) (req : RequestMessageV1) : HttpCall :=
  { method := req.method, url := endpoint, timeout := req.timeout, content := req.payload }

/-! ## Engine process and wrapper state -/

/-- Deployment context handed to `load_context`; opaque to the wrapper. -/
inductive PythonModelContext
  | mk

/-- Artifact manifest returned by `setup_artifacts` (a name-to-path mapping). -/
def ArtifactMap : Type := List (String × String)

/-- Engine configuration surface used by the wrapper: the model name and the
artifact-materialization routine.  `setup_artifacts` is an external
collaborator (spec §6), modelled as an arbitrary function. -/
structure EngineConfig where
  model : String
  setup_artifacts : String → ArtifactMap

/-- One engine process handle with its bound HTTP client.  `running` and
`startCount` record start-up history. -/
structure EngineProcess where
  config : EngineConfig
  running : Bool
  startCount : Nat
  oai_http_client : HttpClient

/-- Modelled from the spec: `EngineProcess.start_proc` lives in
`mlflow_extensions.serving.engines.base`, outside the sources under
verification; spec §5 states that start-up is "guarded so a second start on
an already-initialized handle is a no-op". -/
def EngineProcess.start_proc (e : EngineProcess) (_ctx : PythonModelContext) : EngineProcess :=
  if e.running then e else { e with running := true, startCount := e.startCount + 1 }

/-- Errors raised by the wrapper, named per the spec's taxonomy (§7):
`invalidInputShape` is the `ValueError` of wrapper.py:82, `malformedEnvelope`
the decode failure of `RequestMessageV1.deserialize`, and
`artifactsNotConfigured` the `ValueError` of wrapper.py:38. -/
inductive WErr
  | invalidInputShape
  | malformedEnvelope
  | artifactsNotConfigured
deriving DecidableEq

/-- State of a `CustomServingEnginePyfuncWrapper` instance (wrapper.py:19-33). -/
structure CustomServingEnginePyfuncWrapper where
  _engine_klass : EngineConfig → EngineProcess
  _engine_config : EngineConfig
  _engine : Option EngineProcess
  _model_name : String
  _endpoint : String
  _artifacts : Option ArtifactMap

/-- Constructor `__init__` (wrapper.py:22-33). -/
def CustomServingEnginePyfuncWrapper.init (engine : EngineConfig → EngineProcess)
    (engine_config : EngineConfig) (endpoint : String) : CustomServingEnginePyfuncWrapper :=
  { _engine_klass := engine
    _engine_config := engine_config
    _engine := none
    _model_name := engine_config.model
    _endpoint := endpoint
    _artifacts := none }

/-- Property `artifacts` (wrapper.py:35-39): raises when `_artifacts` is
still `None`, otherwise returns the stored manifest. -/
def CustomServingEnginePyfuncWrapper.artifacts (w : CustomServingEnginePyfuncWrapper) :
    Except WErr ArtifactMap :=
  match w._artifacts with
  | none => Except.error WErr.artifactsNotConfigured
  | some a => Except.ok a

/-- Method `_setup_artifacts` (wrapper.py:87-89): stores and returns the
manifest produced by the engine config. -/
def CustomServingEnginePyfuncWrapper._setup_artifacts (w : CustomServingEnginePyfuncWrapper)
    (local_dir : String) : CustomServingEnginePyfuncWrapper × ArtifactMap :=
  let a := w._engine_config.setup_artifacts local_dir
  ({ w with _artifacts := some a }, a)

/-- Method `load_context` (wrapper.py:74-77): create the engine handle only
if absent, then start it. -/
def CustomServingEnginePyfuncWrapper.load_context (w : CustomServingEnginePyfuncWrapper)
    (ctx : PythonModelContext) : CustomServingEnginePyfuncWrapper :=
  let eng :=
    match w._engine with
    | none => w._engine_klass w._engine_config
    | some e => e
  { w with _engine := some (eng.start_proc ctx) }

/-! ## Gateway and prediction pipeline -/

/-- Method `_request_model` (wrapper.py:41-55): issue one HTTP call with
method, timeout and body from the decoded record against the adapter's fixed
endpoint, and serialize the resulting `ResponseMessageV1`.  Returns the
issued call together with the encoded response. -/
def CustomServingEnginePyfuncWrapper._request_model (client : HttpClient) (endpoint : String)
    (req : RequestMessageV1) : HttpCall × String :=
  let call : HttpCall :=
    { method := req.method, url := endpoint, timeout := req.timeout, content := req.payload }
  let response := client call
  (call,
    (ResponseMessageV1.mk req.method req.timeout response.text response.status_code
      (headersGet response.headers "Content-Type" "")).serialize)

/-- The row loop of `predict` (wrapper.py:85): decode each row in order,
dispatch it, and collect the encoded responses; a row that fails to decode
aborts the rest.  The first component logs every HTTP call issued. -/
def processRows (client : HttpClient) (endpoint : String) :
    List String → List HttpCall × Except WErr (List String)
  | [] => ([], Except.ok [])
  | s :: rest =>
    match RequestMessageV1.deserialize s with
    | none => ([], Except.error WErr.malformedEnvelope)
    | some req =>
      ((CustomServingEnginePyfuncWrapper._request_model client endpoint req).1 ::
          (processRows client endpoint rest).1,
        match (processRows client endpoint rest).2 with
        | Except.error e => Except.error e
        | Except.ok tail =>
          Except.ok ((CustomServingEnginePyfuncWrapper._request_model client endpoint req).2 :: tail))

/-- The runtime shapes `predict` can receive: the accepted containers
(`list`, `dict`, `np.ndarray`) and the rejected scalars of the claim. -/
inductive ModelInput
  | list (xs : List String)
  | dict (entries : List (String × String))
  | ndarray (xs : List String)
  | scalarStr (s : String)
  | number (n : Int)
  | null

/-- Shape validation of `predict` (wrapper.py:81-84): containers yield their
row sequence (a `dict` contributes its values in order, keys discarded);
anything else is rejected. -/
def rowsOf : ModelInput → Option (List String)
  | ModelInput.list xs => some xs
  | ModelInput.dict entries => some (entries.map Prod.snd)
  | ModelInput.ndarray xs => some xs
  | ModelInput.scalarStr _ => none
  | ModelInput.number _ => none
  | ModelInput.null => none

/-- Method `predict` (wrapper.py:79-85): validate the input shape, then run
the row loop.  The first component logs every HTTP call issued. -/
def CustomServingEnginePyfuncWrapper.predict (client : HttpClient) (endpoint : String)
    (input : ModelInput) : List HttpCall × Except WErr (List String) :=
  match rowsOf input with
  | none => ([], Except.error WErr.invalidInputShape)
  | some rows => processRows client endpoint rows

/-! ## JSON values and the response unwrapper -/

/-- Python/JSON values as handled by the `json` module. -/
inductive Json
  | null
  | bool (b : Bool)
  | num (n : Int)
  | str (s : String)
  | arr (xs : List Json)
  | obj (fields : List (String × Json))

/-- The external `json.loads` routine, modelled as an arbitrary partial
parse function: `none` is a raised `JSONDecodeError`. -/
def JsonParse : Type := String → Option Json

/-- Python `dict.get` on a parsed JSON object's fields. -/
def lookupJ (fields : List (String × Json)) (k : String) : Option Json :=
  fields.lookup k

/-- Structured record yielded by the unwrapper (wrapper.py:13-16); `status`
is `prediction.get("status")` (default `None`), `data` the possibly
re-parsed payload. -/
structure CustomEngineServingResponse where
  status : Option Json
  data : Json

/-- Errors the unwrapper's loop can raise: a `json.loads` failure, an
attribute access on a non-dict, or `json.loads` applied to a non-string. -/
inductive IterError
  | jsonDecodeError
  | attributeError
  | typeError
deriving DecidableEq

/-- Boolean success test for an `Except` value. -/
def exceptIsOk {ε α : Type} : Except ε α → Bool
  | Except.ok _ => true
  | Except.error _ => false

/-- Successful value of an `Except`, if any. -/
def exceptToOption {ε α : Type} : Except ε α → Option α
  | Except.ok a => some a
  | Except.error _ => none

/-- Processing of one entry of the `predictions` list (wrapper.py:61-72):
`json.loads` the entry (it must be a string containing a JSON object), get
its `data` field (default `""`), try to `json.loads` the data — on any
failure fall back to the raw value — and build the record with the entry's
`status`. -/
def entryStep (jp : JsonParse) (entry : Json) : Except IterError CustomEngineServingResponse :=
  match entry with
  | Json.str s =>
    match jp s with
    | none => Except.error IterError.jsonDecodeError
    | some p =>
      match p with
      | Json.obj fields =>
        let data := (lookupJ fields "data").getD (Json.str "")
        let prediction_data :=
          match data with
          | Json.str ds =>
            match jp ds with
            | some j => j
            | none => Json.str ds
          | v => v
        Except.ok { status := lookupJ fields "status", data := prediction_data }
      | _ => Except.error IterError.attributeError
  | _ => Except.error IterError.typeError

/-- The generator loop of `iter_mlflow_predictions` (wrapper.py:61-72):
records already yielded when iteration ends, plus the error that stopped it,
if any. -/
def iterPredictions (jp : JsonParse) : List Json → List CustomEngineServingResponse × Option IterError
  | [] => ([], none)
  | e :: rest =>
    match entryStep jp e with
    | Except.error err => ([], some err)
    | Except.ok r =>
      let (tail, te) := iterPredictions jp rest
      (r :: tail, te)

/-- Static method `iter_mlflow_predictions` (wrapper.py:57-72): parse the
framework response body, read its `predictions` list (default `[]`), then
run the entry loop. -/
def iter_mlflow_predictions (jp : JsonParse) (body : String) :
    List CustomEngineServingResponse × Option IterError :=
  match jp body with
  | none => ([], some IterError.jsonDecodeError)
  | some mr =>
    match mr with
    | Json.obj fields =>
      match (lookupJ fields "predictions").getD (Json.arr []) with
      | Json.arr ps => iterPredictions jp ps
      | _ => ([], some IterError.typeError)
    | _ => ([], some IterError.attributeError)

/-! ## Concrete instances used by the witness theorems -/

/-- Fallback record for reading an already-validated decode result. -/
def defaultReq : RequestMessageV1 :=
  { method := "", timeout := 0, payload := "", request_path := "" }

/-- Decoded form of a row known to be well-formed. -/
def reqOf (s : String) : RequestMessageV1 :=
  (RequestMessageV1.deserialize s).getD defaultReq

/-- Witness HTTP client answering every call with status 200. -/
def wClient : HttpClient :=
  fun _ => { status_code := 200, text := "ok", headers := [("Content-Type", "text/plain")] }

/-- Witness HTTP client answering with status 500 and no `Content-Type`. -/
def wClient500 : HttpClient :=
  fun _ => { status_code := 500, text := "err", headers := [] }

/-- Witness request record. -/
def wReq1 : RequestMessageV1 :=
  { method := "GET", timeout := 5, payload := "hello", request_path := "/a" }

/-- Witness request record whose payload contains structural characters. -/
def wReq2 : RequestMessageV1 :=
  { method := "POST", timeout := 30, payload := "a;b\\c", request_path := "/b" }

/-- Witness batch of two well-formed rows. -/
def wRows : List String := [wReq1.serialize, wReq2.serialize]

/-- Witness engine configuration. -/
def wConfig : EngineConfig :=
  { model := "m", setup_artifacts := fun d => [("weights", d)] }

/-- Witness engine constructor: a handle that is not yet running. -/
def wKlass : EngineConfig → EngineProcess :=
  fun cfg => { config := cfg, running := false, startCount := 0, oai_http_client := wClient }

/-- Witness JSON object for one prediction entry. -/
def wEntryJson : Json :=
  Json.obj [("status", Json.num 200), ("data", Json.str "not-json")]

/-- Witness `json.loads`: knows the single entry string `"e1"` and nothing
else, so `"not-json"` fails to parse. -/
def wJP : JsonParse :=
  fun s => if s = "e1" then some wEntryJson else none

/-- Witness engine handle that has already been started. -/
def wEngineRunning : EngineProcess :=
  { config := wConfig, running := true, startCount := 1, oai_http_client := wClient }

/-- Witness wrapper whose engine handle is already initialized and running. -/
def wWrapperStarted : CustomServingEnginePyfuncWrapper :=
  { CustomServingEnginePyfuncWrapper.init wKlass wConfig "/chat/completions" with
    _engine := some wEngineRunning }

/-! ## Helper lemmas -/

theorem digitOfChar_digitChar {d : Nat} (h : d < 10) :
    digitOfChar (digitChar d) = some d := by
  interval_cases d <;> rfl

theorem charsToNatAux_append (acc : Nat) (xs ys : List Char) :
    charsToNatAux acc (xs ++ ys) =
      match charsToNatAux acc xs with
      | none => none
      | some a => charsToNatAux a ys := by
  induction xs generalizing acc with
  | nil => simp [charsToNatAux]
  | cons c cs ih =>
    simp only [List.cons_append, charsToNatAux]
    cases digitOfChar c with
    | none => simp
    | some d => simp [ih]

theorem natToCharsAux_correct :
    ∀ fuel n acc, n < fuel →
      charsToNatAux acc (natToCharsAux fuel n) =
        some (acc * 10 ^ (natToCharsAux fuel n).length + n) := by
  intro fuel
  induction fuel with
  | zero => intro n acc h; omega
  | succ fuel ih =>
    intro n acc h
    by_cases hn : n < 10
    · simp [natToCharsAux, hn, charsToNatAux, digitOfChar_digitChar hn]
    · have hdiv : n / 10 < n := Nat.div_lt_self (by omega) (by omega)
      have hfuel : n / 10 < fuel := by omega
      simp only [natToCharsAux, if_neg hn]
      rw [charsToNatAux_append, ih (n / 10) acc hfuel]
      have hmod : n % 10 < 10 := Nat.mod_lt n (by omega)
      simp only [charsToNatAux, digitOfChar_digitChar hmod]
      have : (acc * 10 ^ (natToCharsAux fuel (n / 10)).length + n / 10) * 10 + n % 10 =
          acc * 10 ^ ((natToCharsAux fuel (n / 10)).length + 1) + n := by
        have := Nat.div_add_mod n 10
        ring_nf
        omega
      simp [List.length_append, this]

theorem natToChars_ne_nil (n : Nat) : natToChars n ≠ [] := by
  unfold natToChars natToCharsAux
  by_cases hn : n < 10 <;> simp [hn]

theorem charsToNat_natToChars (n : Nat) : charsToNat (natToChars n) = some n := by
  have hne := natToChars_ne_nil n
  rw [charsToNat, if_neg (by simpa [List.isEmpty_iff] using hne)]
  have := natToCharsAux_correct (n + 1) n 0 (Nat.lt_succ_self n)
  simpa [natToChars] using this

theorem parseVal_esc (v rest : List Char) :
    parseVal (esc v ++ ';' :: rest) = some (v, rest) := by
  induction v with
  | nil =>
    cases rest <;> simp [esc, parseVal]
  | cons c cs ih =>
    by_cases h : needsEsc c
    · simp [esc, h, parseVal, ih]
    · have h1 : ¬ c = ';' := by
        intro hc; rw [hc] at h; simp [needsEsc] at h
      have h2 : ¬ c = '\\' := by
        intro hc; rw [hc] at h; simp [needsEsc] at h
      rcases htail : esc cs ++ ';' :: rest with _ | ⟨d, tail⟩
      · exact absurd htail (by simp)
      · simp [esc, h, htail, parseVal, h1, h2]
        rw [← htail, ih]

theorem dropTag_append (t rest : List Char) : dropTag t (t ++ rest) = some rest := by
  induction t with
  | nil => simp [dropTag]
  | cons c cs ih => simp [dropTag, ih]

theorem parseField_encField (tag v rest : List Char) :
    parseField tag (encField tag v ++ rest) = some (v, rest) := by
  simp only [encField, parseField, List.append_assoc, List.singleton_append,
    dropTag_append, parseVal_esc]

theorem parseField_encField_nil (tag v : List Char) :
    parseField tag (encField tag v) = some (v, []) := by
  have h := parseField_encField tag v []
  simpa using h

theorem req_deserialize_serialize (r : RequestMessageV1) :
    RequestMessageV1.deserialize (RequestMessageV1.serialize r) = some r := by
  obtain ⟨⟨m⟩, t, ⟨p⟩, ⟨rp⟩⟩ := r
  have h : (RequestMessageV1.serialize ⟨⟨m⟩, t, ⟨p⟩, ⟨rp⟩⟩).data =
      encField methodTag m ++ (encField timeoutTag (natToChars t) ++
        (encField payloadTag p ++ (encField requestPathTag rp ++ []))) := by
    simp [RequestMessageV1.serialize]
  rw [RequestMessageV1.deserialize, h]
  simp [deserializeReqAux, parseField_encField, parseField_encField_nil, charsToNat_natToChars]

theorem resp_deserialize_serialize (r : ResponseMessageV1) :
    ResponseMessageV1.deserialize (ResponseMessageV1.serialize r) = some r := by
  obtain ⟨⟨m⟩, t, ⟨d⟩, code, ⟨ct⟩⟩ := r
  have h : (ResponseMessageV1.serialize ⟨⟨m⟩, t, ⟨d⟩, code, ⟨ct⟩⟩).data =
      encField requestMethodTag m ++ (encField requestTimeoutTag (natToChars t) ++
        (encField responseDataTag d ++ (encField responseStatusCodeTag (natToChars code) ++
          (encField responseContentTypeTag ct ++ [])))) := by
    simp [ResponseMessageV1.serialize]
  rw [ResponseMessageV1.deserialize, h]
  simp [deserializeRespAux, parseField_encField, parseField_encField_nil, charsToNat_natToChars]

theorem reqOf_eq {s : String} {req : RequestMessageV1}
    (h : RequestMessageV1.deserialize s = some req) : reqOf s = req := by
  simp [reqOf, h]

theorem processRows_ok (client : HttpClient) (endpoint : String) (xs : List String)
    (h : ∀ s ∈ xs, (RequestMessageV1.deserialize s).isSome = true) :
    processRows client endpoint xs =
      (xs.map fun s => (CustomServingEnginePyfuncWrapper._request_model client endpoint (reqOf s)).1,
        Except.ok
          (xs.map fun s =>
            (CustomServingEnginePyfuncWrapper._request_model client endpoint (reqOf s)).2)) := by
  induction xs with
  | nil => simp [processRows]
  | cons s rest ih =>
    have hs := h s (by simp)
    obtain ⟨req, hreq⟩ := Option.isSome_iff_exists.mp hs
    have hrest : ∀ t ∈ rest, (RequestMessageV1.deserialize t).isSome = true :=
      fun t ht => h t (by simp [ht])
    simp [processRows, hreq, ih hrest, reqOf_eq hreq]

theorem processRows_append (client : HttpClient) (endpoint : String) (pre ys : List String)
    (h : ∀ s ∈ pre, (RequestMessageV1.deserialize s).isSome = true) :
    (processRows client endpoint (pre ++ ys)).1 =
      (pre.map fun s =>
          (CustomServingEnginePyfuncWrapper._request_model client endpoint (reqOf s)).1) ++
        (processRows client endpoint ys).1 ∧
    (processRows client endpoint (pre ++ ys)).2 =
      (match (processRows client endpoint ys).2 with
        | Except.error e => Except.error e
        | Except.ok tail =>
          Except.ok
            ((pre.map fun s =>
              (CustomServingEnginePyfuncWrapper._request_model client endpoint (reqOf s)).2) ++
              tail)) := by
  induction pre with
  | nil =>
    refine ⟨by simp, ?_⟩
    simp only [List.nil_append, List.map_nil]
    cases hres : (processRows client endpoint ys).2 <;> simp
  | cons s rest ih =>
    have hs := h s (by simp)
    obtain ⟨req, hreq⟩ := Option.isSome_iff_exists.mp hs
    have hrest : ∀ t ∈ rest, (RequestMessageV1.deserialize t).isSome = true :=
      fun t ht => h t (by simp [ht])
    obtain ⟨ih1, ih2⟩ := ih hrest
    constructor
    · simp [processRows, hreq, ih1, reqOf_eq hreq]
    · simp only [List.cons_append, processRows, hreq, List.map_cons]
      rw [List.append_eq, ih2]
      cases hres : (processRows client endpoint ys).2 <;> simp [reqOf_eq hreq]

theorem processRows_calls_shape (client : HttpClient) (endpoint : String) (xs : List String) :
    ∀ call ∈ (processRows client endpoint xs).1,
      ∃ s ∈ xs, ∃ req, RequestMessageV1.deserialize s = some req ∧
        call = { method := req.method, url := endpoint, timeout := req.timeout,
                 content := req.payload } := by
  induction xs with
  | nil => simp [processRows]
  | cons s rest ih =>
    intro call hcall
    rw [processRows] at hcall
    cases hreq : RequestMessageV1.deserialize s with
    | none => simp [hreq] at hcall
    | some req =>
      simp only [hreq] at hcall
      rcases List.mem_cons.mp (by simpa [CustomServingEnginePyfuncWrapper._request_model]
          using hcall) with hc | hc
      · exact ⟨s, by simp, req, hreq, by simpa [CustomServingEnginePyfuncWrapper._request_model]
          using hc⟩
      · obtain ⟨t, ht, req2, hreq2, hcall2⟩ := ih call hc
        exact ⟨t, by simp [ht], req2, hreq2, hcall2⟩

theorem iterPredictions_ok (jp : JsonParse) (entries : List Json)
    (h : ∀ e ∈ entries, exceptIsOk (entryStep jp e) = true) :
    ∃ rs, iterPredictions jp entries = (rs, none) ∧ rs.length = entries.length ∧
      ∀ (i : Nat) (e : Json), entries[i]? = some e → rs[i]? = exceptToOption (entryStep jp e) := by
  induction entries with
  | nil => exact ⟨[], by simp [iterPredictions]⟩
  | cons e rest ih =>
    have he := h e (by simp)
    obtain ⟨r, hr⟩ : ∃ r, entryStep jp e = Except.ok r := by
      cases hs : entryStep jp e with
      | ok r => exact ⟨r, rfl⟩
      | error err => rw [hs] at he; simp [exceptIsOk] at he
    have hrest : ∀ t ∈ rest, exceptIsOk (entryStep jp t) = true :=
      fun t ht => h t (by simp [ht])
    obtain ⟨rs, hrs, hlen, hidx⟩ := ih hrest
    refine ⟨r :: rs, by simp [iterPredictions, hr, hrs], by simp [hlen], ?_⟩
    intro i x hx
    cases i with
    | zero =>
      simp at hx
      simp [← hx, hr, exceptToOption]
    | succ n =>
      simp at hx
      simpa using hidx n x hx

theorem iterPredictions_append (jp : JsonParse) (pre ys : List Json)
    (h : ∀ e ∈ pre, exceptIsOk (entryStep jp e) = true) :
    iterPredictions jp (pre ++ ys) =
      ((iterPredictions jp pre).1 ++ (iterPredictions jp ys).1, (iterPredictions jp ys).2) := by
  induction pre with
  | nil => simp [iterPredictions]
  | cons e rest ih =>
    have he := h e (by simp)
    obtain ⟨r, hr⟩ : ∃ r, entryStep jp e = Except.ok r := by
      cases hs : entryStep jp e with
      | ok r => exact ⟨r, rfl⟩
      | error err => rw [hs] at he; simp [exceptIsOk] at he
    have hrest : ∀ t ∈ rest, exceptIsOk (entryStep jp t) = true :=
      fun t ht => h t (by simp [ht])
    simp [iterPredictions, hr, ih hrest]

theorem processRows_ne_invalidInputShape (client : HttpClient) (endpoint : String)
    (xs : List String) :
    (processRows client endpoint xs).2 ≠ Except.error WErr.invalidInputShape := by
  induction xs with
  | nil => simp [processRows]
  | cons s rest ih =>
    cases hreq : RequestMessageV1.deserialize s with
    | none => simp [processRows, hreq]
    | some req =>
      simp only [processRows, hreq]
      cases hres : (processRows client endpoint rest).2 with
      | error e =>
        rw [hres] at ih
        simpa using ih
      | ok tail => simp

theorem start_proc_start_proc (e : EngineProcess) (c1 c2 : PythonModelContext) :
    (e.start_proc c1).start_proc c2 = e.start_proc c1 := by
  by_cases h : e.running = true <;> simp [EngineProcess.start_proc, h]

/-- C1: for every accepted batch input whose rows all decode, `predict`
returns exactly as many encoded responses as there are input rows, the i-th
output being the encoded response produced by dispatching the i-th row, and
the i-th HTTP call being the dispatch of the i-th row — rows are processed
sequentially in input order with no reordering or dropping. -/
theorem predict_length_and_order (client : HttpClient) (endpoint : String)
    (input : ModelInput) (xs : List String)
    (hshape : rowsOf input = some xs)
    (hdec : ∀ s ∈ xs, (RequestMessageV1.deserialize s).isSome = true) :
    ∃ outs : List String,
      (CustomServingEnginePyfuncWrapper.predict client endpoint input).2 = Except.ok outs ∧
      outs.length = xs.length ∧
      ∀ (i : Nat) (s : String), xs[i]? = some s →
        ∀ req, RequestMessageV1.deserialize s = some req →
          outs[i]? =
            some ((CustomServingEnginePyfuncWrapper._request_model client endpoint req).2) ∧
          (CustomServingEnginePyfuncWrapper.predict client endpoint input).1[i]? =
            some ((CustomServingEnginePyfuncWrapper._request_model client endpoint req).1) := by
  have hp : CustomServingEnginePyfuncWrapper.predict client endpoint input =
      processRows client endpoint xs := by
    simp [CustomServingEnginePyfuncWrapper.predict, hshape]
  refine ⟨xs.map fun s =>
    (CustomServingEnginePyfuncWrapper._request_model client endpoint (reqOf s)).2, ?_, by simp, ?_⟩
  · rw [hp, processRows_ok client endpoint xs hdec]
  · intro i s hxi req hreq
    constructor
    · simp [List.getElem?_map, hxi, reqOf_eq hreq]
    · rw [hp, processRows_ok client endpoint xs hdec]
      simp [List.getElem?_map, hxi, reqOf_eq hreq]

/-- C1 witness: a concrete two-row batch through the witness client. -/
theorem predict_length_and_order_witness :
    rowsOf (ModelInput.list wRows) = some wRows ∧
    (∀ s ∈ wRows, (RequestMessageV1.deserialize s).isSome = true) ∧
    ∃ outs : List String,
      (CustomServingEnginePyfuncWrapper.predict wClient "/chat/completions"
          (ModelInput.list wRows)).2 = Except.ok outs ∧
      outs.length = wRows.length ∧
      ∀ (i : Nat) (s : String), wRows[i]? = some s →
        ∀ req, RequestMessageV1.deserialize s = some req →
          outs[i]? =
            some ((CustomServingEnginePyfuncWrapper._request_model wClient "/chat/completions"
              req).2) ∧
          (CustomServingEnginePyfuncWrapper.predict wClient "/chat/completions"
              (ModelInput.list wRows)).1[i]? =
            some ((CustomServingEnginePyfuncWrapper._request_model wClient "/chat/completions"
              req).1) :=
  ⟨rfl, by decide,
    predict_length_and_order wClient "/chat/completions" (ModelInput.list wRows) wRows rfl
      (by decide)⟩

/-- C2: decoding the string produced by encoding any request record yields
that record back, payload preserved exactly; the same holds for every
response record. -/
theorem envelope_codec_roundtrip :
    (∀ r : RequestMessageV1,
      RequestMessageV1.deserialize (RequestMessageV1.serialize r) = some r) ∧
    (∀ r : ResponseMessageV1,
      ResponseMessageV1.deserialize (ResponseMessageV1.serialize r) = some r) :=
  ⟨req_deserialize_serialize, resp_deserialize_serialize⟩

/-- C3: `predict` accepts exactly the three container shapes — a sequence of
encoded-request strings, a mapping whose values are processed in order with
keys discarded, and an array-like of strings — and fails with
`InvalidInputShape` on anything else (a single string, a number, null)
without issuing any HTTP call; accepted shapes never produce that error. -/
theorem predict_shape_acceptance (client : HttpClient) (endpoint : String) :
    (∀ s, CustomServingEnginePyfuncWrapper.predict client endpoint (ModelInput.scalarStr s) =
      ([], Except.error WErr.invalidInputShape)) ∧
    (∀ n, CustomServingEnginePyfuncWrapper.predict client endpoint (ModelInput.number n) =
      ([], Except.error WErr.invalidInputShape)) ∧
    (CustomServingEnginePyfuncWrapper.predict client endpoint ModelInput.null =
      ([], Except.error WErr.invalidInputShape)) ∧
    (∀ entries, CustomServingEnginePyfuncWrapper.predict client endpoint
        (ModelInput.dict entries) =
      CustomServingEnginePyfuncWrapper.predict client endpoint
        (ModelInput.list (entries.map Prod.snd))) ∧
    (∀ xs, CustomServingEnginePyfuncWrapper.predict client endpoint (ModelInput.ndarray xs) =
      CustomServingEnginePyfuncWrapper.predict client endpoint (ModelInput.list xs)) ∧
    (∀ input rows, rowsOf input = some rows →
      (CustomServingEnginePyfuncWrapper.predict client endpoint input).2 ≠
        Except.error WErr.invalidInputShape) := by
  refine ⟨fun s => rfl, fun n => rfl, rfl, fun entries => rfl, fun xs => rfl, ?_⟩
  intro input rows hrows
  have hp : CustomServingEnginePyfuncWrapper.predict client endpoint input =
      processRows client endpoint rows := by
    simp [CustomServingEnginePyfuncWrapper.predict, hrows]
  rw [hp]
  exact processRows_ne_invalidInputShape client endpoint rows

/-- C3 witness: a scalar string is rejected with no HTTP call; a concrete
list batch is not rejected for shape. -/
theorem predict_shape_acceptance_witness :
    CustomServingEnginePyfuncWrapper.predict wClient "/chat/completions"
        (ModelInput.scalarStr "x") = ([], Except.error WErr.invalidInputShape) ∧
    rowsOf (ModelInput.list wRows) = some wRows ∧
    (CustomServingEnginePyfuncWrapper.predict wClient "/chat/completions"
        (ModelInput.list wRows)).2 ≠ Except.error WErr.invalidInputShape :=
  ⟨(predict_shape_acceptance wClient "/chat/completions").1 "x", rfl,
    (predict_shape_acceptance wClient "/chat/completions").2.2.2.2.2
      (ModelInput.list wRows) wRows rfl⟩

/-- C4: for every completed HTTP exchange the gateway serializes a
`ResponseMessageV1` echoing the request's method and timeout, carrying the
response body text and numeric status code unchanged (any status, including
4xx/5xx), and the `Content-Type` header if present, else the empty string. -/
theorem request_model_constructs_response (client : HttpClient) (endpoint : String)
    (req : RequestMessageV1) :
    ResponseMessageV1.deserialize
        (CustomServingEnginePyfuncWrapper._request_model client endpoint req).2 =
      some
        { request_method := req.method
          request_timeout := req.timeout
          response_data := (client (mkHttpCall endpoint req)).text
          response_status_code := (client (mkHttpCall endpoint req)).status_code
          response_content_type :=
            headersGet (client (mkHttpCall endpoint req)).headers "Content-Type" "" } ∧
    (∀ hs : List (String × String), hs.lookup "Content-Type" = none →
      headersGet hs "Content-Type" "" = "") ∧
    (∀ (hs : List (String × String)) (v : String), hs.lookup "Content-Type" = some v →
      headersGet hs "Content-Type" "" = v) := by
  refine ⟨resp_deserialize_serialize _, ?_, ?_⟩
  · intro hs h
    simp [headersGet, h]
  · intro hs v h
    simp [headersGet, h]

/-- C4 witness: a 500 response without a `Content-Type` header round-trips
into a record with status 500 and an empty content type. -/
theorem request_model_constructs_response_witness :
    ResponseMessageV1.deserialize
        (CustomServingEnginePyfuncWrapper._request_model wClient500 "/chat/completions" wReq1).2 =
      some { request_method := "GET", request_timeout := 5, response_data := "err",
             response_status_code := 500, response_content_type := "" } :=
  (request_model_constructs_response wClient500 "/chat/completions" wReq1).1

/-- C5: every HTTP call issued during a prediction comes from a decoded row
and uses the record's method, timeout and raw payload as body, while its URL
is the adapter's fixed endpoint — never the record's `request_path`. -/
theorem dispatch_uses_fixed_endpoint (client : HttpClient) (endpoint : String)
    (input : ModelInput) (xs : List String) (hshape : rowsOf input = some xs) :
    ∀ call ∈ (CustomServingEnginePyfuncWrapper.predict client endpoint input).1,
      ∃ s ∈ xs, ∃ req, RequestMessageV1.deserialize s = some req ∧
        call = { method := req.method, url := endpoint, timeout := req.timeout,
                 content := req.payload } := by
  intro call hcall
  exact processRows_calls_shape client endpoint xs call
    (by simpa [CustomServingEnginePyfuncWrapper.predict, hshape] using hcall)

/-- C5 witness: the concrete two-row batch, each call targeting the fixed
endpoint. -/
theorem dispatch_uses_fixed_endpoint_witness :
    rowsOf (ModelInput.list wRows) = some wRows ∧
    ∀ call ∈ (CustomServingEnginePyfuncWrapper.predict wClient "/chat/completions"
        (ModelInput.list wRows)).1,
      ∃ s ∈ wRows, ∃ req, RequestMessageV1.deserialize s = some req ∧
        call = { method := req.method, url := "/chat/completions", timeout := req.timeout,
                 content := req.payload } :=
  ⟨rfl, dispatch_uses_fixed_endpoint wClient "/chat/completions" (ModelInput.list wRows)
    wRows rfl⟩

/-- C6: a batch containing a row that fails to decode makes `predict` fail
with `MalformedEnvelope`; HTTP calls are issued only for the rows strictly
before the malformed one — none for it or any later row, and no partial
results are returned. -/
theorem predict_malformed_fail_fast (client : HttpClient) (endpoint : String)
    (pre : List String) (bad : String) (post : List String)
    (hpre : ∀ s ∈ pre, (RequestMessageV1.deserialize s).isSome = true)
    (hbad : RequestMessageV1.deserialize bad = none) :
    (CustomServingEnginePyfuncWrapper.predict client endpoint
        (ModelInput.list (pre ++ bad :: post))).2 = Except.error WErr.malformedEnvelope ∧
    (CustomServingEnginePyfuncWrapper.predict client endpoint
        (ModelInput.list (pre ++ bad :: post))).1.length = pre.length := by
  have hb : processRows client endpoint (bad :: post) =
      ([], Except.error WErr.malformedEnvelope) := by
    simp [processRows, hbad]
  obtain ⟨h1, h2⟩ := processRows_append client endpoint pre (bad :: post) hpre
  constructor
  · show (processRows client endpoint (pre ++ bad :: post)).2 = _
    rw [h2, hb]
  · show (processRows client endpoint (pre ++ bad :: post)).1.length = _
    rw [h1, hb]
    simp

/-- C6 witness: a batch of a valid row, a junk row and a trailing valid row
aborts with `MalformedEnvelope` after exactly one HTTP call. -/
theorem predict_malformed_fail_fast_witness :
    (∀ s ∈ [wReq1.serialize], (RequestMessageV1.deserialize s).isSome = true) ∧
    RequestMessageV1.deserialize "junk" = none ∧
    (CustomServingEnginePyfuncWrapper.predict wClient "/chat/completions"
        (ModelInput.list ([wReq1.serialize] ++ "junk" :: [wReq2.serialize]))).2 =
      Except.error WErr.malformedEnvelope ∧
    (CustomServingEnginePyfuncWrapper.predict wClient "/chat/completions"
        (ModelInput.list ([wReq1.serialize] ++ "junk" :: [wReq2.serialize]))).1.length = 1 :=
  ⟨by decide, by decide,
    (predict_malformed_fail_fast wClient "/chat/completions" [wReq1.serialize] "junk"
      [wReq2.serialize] (by decide) (by decide)).1,
    (predict_malformed_fail_fast wClient "/chat/completions" [wReq1.serialize] "junk"
      [wReq2.serialize] (by decide) (by decide)).2⟩

/-- C7: when every entry of the predictions list is a JSON string holding an
object, the unwrapper yields one record per entry, in order, with no error;
for each entry the `data` field is re-parsed as JSON — on success the parsed
structure becomes the payload, on failure the raw string is used verbatim
with no error raised — and the entry's `status` is carried along. -/
theorem unwrapper_data_fallback (jp : JsonParse) (entries : List Json)
    (h : ∀ e ∈ entries, exceptIsOk (entryStep jp e) = true) :
    (∃ rs, iterPredictions jp entries = (rs, none) ∧ rs.length = entries.length ∧
      ∀ (i : Nat) (e : Json), entries[i]? = some e →
        rs[i]? = exceptToOption (entryStep jp e)) ∧
    (∀ (s : String) (fields : List (String × Json)), jp s = some (Json.obj fields) →
      ∀ ds : String, lookupJ fields "data" = some (Json.str ds) →
        entryStep jp (Json.str s) =
          Except.ok
            { status := lookupJ fields "status"
              data := match jp ds with
                      | some j => j
                      | none => Json.str ds }) := by
  refine ⟨iterPredictions_ok jp entries h, ?_⟩
  intro s fields hs ds hds
  simp [entryStep, hs, hds]

/-- C7 witness: one entry whose `data` field is the literal string
`not-json`, which fails to re-parse and is yielded verbatim. -/
theorem unwrapper_data_fallback_witness :
    (∀ e ∈ [Json.str "e1"], exceptIsOk (entryStep wJP e) = true) ∧
    ((∃ rs, iterPredictions wJP [Json.str "e1"] = (rs, none) ∧
        rs.length = [Json.str "e1"].length ∧
        ∀ (i : Nat) (e : Json), [Json.str "e1"][i]? = some e →
          rs[i]? = exceptToOption (entryStep wJP e)) ∧
      (∀ (s : String) (fields : List (String × Json)), wJP s = some (Json.obj fields) →
        ∀ ds : String, lookupJ fields "data" = some (Json.str ds) →
          entryStep wJP (Json.str s) =
            Except.ok
              { status := lookupJ fields "status"
                data := match wJP ds with
                        | some j => j
                        | none => Json.str ds })) :=
  ⟨by decide, unwrapper_data_fallback wJP [Json.str "e1"] (by decide)⟩

/-- C8: engine start-up is idempotent from the adapter's perspective — a
second `load_context` on a wrapper whose engine is already initialized and
started changes nothing: no second engine handle is created and the started
engine is not started again. -/
theorem load_context_idempotent (w : CustomServingEnginePyfuncWrapper)
    (ctx1 ctx2 : PythonModelContext) :
    (w.load_context ctx1).load_context ctx2 = w.load_context ctx1 ∧
    ∀ e, w._engine = some e → e.running = true → w.load_context ctx1 = w := by
  constructor
  · cases hw : w._engine with
    | none =>
      simp [CustomServingEnginePyfuncWrapper.load_context, hw, start_proc_start_proc]
    | some e =>
      simp [CustomServingEnginePyfuncWrapper.load_context, hw, start_proc_start_proc]
  · intro e he hrun
    obtain ⟨k, cfg, eng, mn, ep, arts⟩ := w
    simp only at he
    subst he
    simp [CustomServingEnginePyfuncWrapper.load_context, EngineProcess.start_proc, hrun]

/-- C8 witness: a second `load_context` on the started witness wrapper is the
identity, and two consecutive `load_context` calls on a fresh wrapper equal
one. -/
theorem load_context_idempotent_witness :
    wWrapperStarted.load_context PythonModelContext.mk = wWrapperStarted ∧
    ((CustomServingEnginePyfuncWrapper.init wKlass wConfig "/chat/completions").load_context
        PythonModelContext.mk).load_context PythonModelContext.mk =
      (CustomServingEnginePyfuncWrapper.init wKlass wConfig "/chat/completions").load_context
        PythonModelContext.mk :=
  ⟨(load_context_idempotent wWrapperStarted PythonModelContext.mk PythonModelContext.mk).2
      wEngineRunning rfl rfl,
    (load_context_idempotent (CustomServingEnginePyfuncWrapper.init wKlass wConfig
      "/chat/completions") PythonModelContext.mk PythonModelContext.mk).1⟩

/-- C9: the artifacts accessor raises `ArtifactsNotConfigured` exactly when
setup has not stored a manifest: it errors on a freshly constructed wrapper,
and after `_setup_artifacts` it returns the stored manifest without error. -/
theorem artifacts_accessor_spec :
    (∀ w : CustomServingEnginePyfuncWrapper,
      w.artifacts = Except.error WErr.artifactsNotConfigured ↔ w._artifacts = none) ∧
    (∀ (k : EngineConfig → EngineProcess) (cfg : EngineConfig) (ep : String),
      (CustomServingEnginePyfuncWrapper.init k cfg ep).artifacts =
        Except.error WErr.artifactsNotConfigured) ∧
    (∀ (w : CustomServingEnginePyfuncWrapper) (d : String),
      ((w._setup_artifacts d).1).artifacts = Except.ok ((w._setup_artifacts d).2)) := by
  refine ⟨?_, ?_, ?_⟩
  · intro w
    cases hw : w._artifacts <;> simp [CustomServingEnginePyfuncWrapper.artifacts, hw]
  · intro k cfg ep
    rfl
  · intro w d
    rfl

/-- C9 witness: the fresh witness wrapper errors; after setup the stored
manifest is returned. -/
theorem artifacts_accessor_spec_witness :
    (CustomServingEnginePyfuncWrapper.init wKlass wConfig "/chat/completions").artifacts =
      Except.error WErr.artifactsNotConfigured ∧
    (((CustomServingEnginePyfuncWrapper.init wKlass wConfig
        "/chat/completions")._setup_artifacts "/root/models").1).artifacts =
      Except.ok [("weights", "/root/models")] :=
  ⟨artifacts_accessor_spec.2.1 wKlass wConfig "/chat/completions",
    artifacts_accessor_spec.2.2
      (CustomServingEnginePyfuncWrapper.init wKlass wConfig "/chat/completions") "/root/models"⟩

/-- C10: an entry of the predictions list that is a string but not valid
JSON stops the unwrapper with an uncaught JSON-decode error when reached:
records are yielded only for the entries strictly before it, none for it or
any later entry. -/
theorem unwrapper_entry_decode_error (jp : JsonParse) (pre : List Json) (s : String)
    (post : List Json)
    (hpre : ∀ e ∈ pre, exceptIsOk (entryStep jp e) = true)
    (hbad : jp s = none) :
    (iterPredictions jp (pre ++ Json.str s :: post)).2 = some IterError.jsonDecodeError ∧
    (iterPredictions jp (pre ++ Json.str s :: post)).1.length = pre.length := by
  have hb : iterPredictions jp (Json.str s :: post) =
      ([], some IterError.jsonDecodeError) := by
    simp [iterPredictions, entryStep, hbad]
  have happ := iterPredictions_append jp pre (Json.str s :: post) hpre
  obtain ⟨rs, hrs, hlen, _⟩ := iterPredictions_ok jp pre hpre
  constructor
  · rw [happ, hb]
  · rw [happ, hb]
    simp [hrs, hlen]

/-- C10 witness: a valid entry followed by a non-JSON string entry yields
exactly one record then the decode error. -/
theorem unwrapper_entry_decode_error_witness :
    (∀ e ∈ [Json.str "e1"], exceptIsOk (entryStep wJP e) = true) ∧
    wJP "bad" = none ∧
    (iterPredictions wJP ([Json.str "e1"] ++ Json.str "bad" :: [])).2 =
      some IterError.jsonDecodeError ∧
    (iterPredictions wJP ([Json.str "e1"] ++ Json.str "bad" :: [])).1.length = 1 :=
  ⟨by decide, rfl,
    (unwrapper_entry_decode_error wJP [Json.str "e1"] "bad" [] (by decide) rfl).1,
    (unwrapper_entry_decode_error wJP [Json.str "e1"] "bad" [] (by decide) rfl).2⟩
